import Mathlib

/-!
Shallow embedding of the desktop pond pet simulation core.

Python machine floats are modelled as exact rationals for the particle
physics and as reals for the parts that use the sine function (fish motion
and the sun arc).  Python int() truncation toward zero is modelled by pyInt.
Random draws are passed in explicitly: randint(a, b) is a uniform draw from
the inclusive range modelled by randint_range, and each per-tick trial is
the predicate the code applies to that draw.
-/

namespace Pond

/-- Mirrors the frozen dataclass Config of the source. -/
structure Config where
  WINDOW_WIDTH : ℕ := 320
  WINDOW_HEIGHT : ℕ := 320
  FPS : ℕ := 60
  SUN_RISE_HOUR : ℤ := 6
  SUN_SET_HOUR : ℤ := 18
  SUN_RADIUS : ℕ := 28
  DROP_MIN_SIZE : ℕ := 4
  DROP_MAX_SIZE : ℕ := 10
  DROP_INITIAL_VELOCITY : ℚ := -7
  DROP_GRAVITY : ℚ := 0.25
  DROP_LIFETIME : ℤ := 40
  RAIN_PROBABILITY : ℕ := 25
  RAIN_MIN_LENGTH : ℕ := 8
  RAIN_MAX_LENGTH : ℕ := 18
  RAIN_MIN_SPEED : ℕ := 4
  RAIN_MAX_SPEED : ℕ := 8
  RIPPLE_PROBABILITY : ℕ := 60
  RIPPLE_MAX_RADIUS : ℕ := 30
  RIPPLE_EXPAND_SPEED : ℚ := 0.8
  FISH_COUNT : ℕ := 2
  FISH_PROBABILITY : ℕ := 200
  EASTER_EGG_DAYS : ℤ := 3

/-- The frozen module-level CONFIG instance. -/
def CONFIG : Config := {}

/-- Mirrors the sky-color part of the frozen dataclass ColorTheme. -/
structure ColorTheme where
  sky_dawn : ℕ × ℕ × ℕ × ℕ := (255, 200, 150, 100)
  sky_morning : ℕ × ℕ × ℕ × ℕ := (180, 220, 255, 90)
  sky_noon : ℕ × ℕ × ℕ × ℕ := (135, 206, 250, 70)
  sky_evening : ℕ × ℕ × ℕ × ℕ := (255, 180, 140, 100)
  sky_dusk : ℕ × ℕ × ℕ × ℕ := (255, 140, 100, 110)
  sky_night : ℕ × ℕ × ℕ × ℕ := (30, 50, 80, 120)

/-- The frozen module-level COLORS instance. -/
def COLORS : ColorTheme := {}

/-- Python int() on an exact value: truncation toward zero. -/
def pyInt (q : ℚ) : ℤ := if q < 0 then -Int.floor (-q) else Int.floor q

/-- Mirrors the WaterDrop dataclass. -/
structure WaterDrop where
  x : ℚ
  y : ℚ
  size : ℕ
  velocity_y : ℚ
  lifetime : ℤ
  deriving DecidableEq

/-- WaterDrop.update: mutates position, velocity and lifetime, and returns
the new drop together with the alive flag the method returns. -/
def WaterDrop.update (d : WaterDrop) : WaterDrop × Bool :=
  let d' : WaterDrop :=
    { d with
      y := d.y + d.velocity_y
      velocity_y := d.velocity_y + CONFIG.DROP_GRAVITY
      lifetime := d.lifetime - 1 }
  (d', decide (0 < d'.lifetime ∧ d'.y < (CONFIG.WINDOW_HEIGHT : ℚ) - 30))

/-- The state part of WaterDrop.update, for iteration. -/
def WaterDrop.step (d : WaterDrop) : WaterDrop := d.update.1

/-- Mirrors the RainDrop dataclass. -/
structure RainDrop where
  x : ℚ
  y : ℚ
  length : ℕ
  speed : ℕ
  deriving DecidableEq

/-- RainDrop.update: moves the drop down by its speed and returns the new
drop together with the alive flag the method returns. -/
def RainDrop.update (r : RainDrop) : RainDrop × Bool :=
  let r' : RainDrop := { r with y := r.y + (r.speed : ℚ) }
  (r', decide (r'.y < (CONFIG.WINDOW_HEIGHT : ℚ)))

/-- Mirrors the Ripple dataclass with its field defaults. -/
structure Ripple where
  x : ℚ
  y : ℚ
  radius : ℚ := 2
  max_radius : ℚ := (CONFIG.RIPPLE_MAX_RADIUS : ℚ)
  alpha : ℤ := 200
  deriving DecidableEq

/-- Ripple.update: expands the radius, recomputes alpha, and returns the new
ripple together with the alive flag the method returns. -/
def Ripple.update (r : Ripple) : Ripple × Bool :=
  let radius := r.radius + CONFIG.RIPPLE_EXPAND_SPEED
  let alpha := max 0 (pyInt (200 * (1 - radius / r.max_radius)))
  ({ r with radius := radius, alpha := alpha }, decide (radius < r.max_radius))

/-- Mirrors the Fish dataclass. -/
structure Fish where
  x : ℝ
  y : ℝ
  size : ℕ := 12
  direction : ℤ := 1
  swimming : Bool := true
  jumping : Bool := false
  jump_velocity : ℝ := 0
  base_y : ℝ := 0
  swim_offset : ℝ := 0

/-- Fish.update; the randint(0, FISH_PROBABILITY) draw of the swimming
branch is passed in as r. -/
noncomputable def Fish.update (r : ℕ) (f : Fish) : Fish :=
  if f.jumping then
    let y := f.y + f.jump_velocity
    let vy := f.jump_velocity + 0.3
    if f.base_y ≤ y then
      { f with y := f.base_y, jump_velocity := vy, jumping := false, swimming := true }
    else
      { f with y := y, jump_velocity := vy }
  else
    let offset := f.swim_offset + 0.05
    let x := f.x + 0.3 * (f.direction : ℝ)
    let y := f.base_y + Real.sin offset * 3
    let dir := if x < 60 ∨ (CONFIG.WINDOW_WIDTH : ℝ) - 60 < x then -f.direction else f.direction
    if r = 0 then
      { f with
        x := x
        y := y
        swim_offset := offset
        direction := dir
        jumping := true
        swimming := false
        jump_velocity := -6 }
    else
      { f with x := x, y := y, swim_offset := offset, direction := dir }

/-- Mirrors the LotusLeaf dataclass. -/
structure LotusLeaf where
  x : ℚ
  y : ℚ
  size : ℕ
  wobble_offset : ℚ := 0
  deriving DecidableEq

/-- LotusLeaf.update: advances the wobble phase. -/
def LotusLeaf.update (l : LotusLeaf) : LotusLeaf :=
  { l with wobble_offset := l.wobble_offset + 0.02 }

/-- Mirrors the Star dataclass. -/
structure Star where
  x : ℚ
  y : ℚ
  size : ℕ
  twinkle_offset : ℚ := 0
  deriving DecidableEq

/-- Star.update: advances the twinkle phase. -/
def Star.update (s : Star) : Star :=
  { s with twinkle_offset := s.twinkle_offset + 0.08 }

/-- The GameState fields the verified operations touch: the immutable start
timestamp, the derived run-day counter, the milestone flag, and the entity
lists. -/
structure GameState where
  start_time : ℚ
  run_days : ℤ := 0
  mountain_show : Bool := false
  drops : List WaterDrop := []
  rain : List RainDrop := []
  ripples : List Ripple := []

/-- GameState.update_run_days; the time.time() reading is passed in as now.
Python int(delta // 86400) is an exact floor for in-range values. -/
def GameState.update_run_days (s : GameState) (now : ℚ) : GameState :=
  let delta := now - s.start_time
  let run_days : ℤ := Int.floor (delta / (24 * 60 * 60))
  { s with run_days := run_days, mountain_show := decide (CONFIG.EASTER_EGG_DAYS ≤ run_days) }

/-- GameState.spawn_drop with an explicit x; the random size and the uniform
velocity jitter are passed in. -/
def GameState.spawn_drop (s : GameState) (x : ℤ) (size : ℕ) (jitter : ℚ) : GameState :=
  let drop : WaterDrop :=
    { x := (x : ℚ)
      y := (CONFIG.WINDOW_HEIGHT : ℚ) - 45
      size := size
      velocity_y := CONFIG.DROP_INITIAL_VELOCITY + jitter
      lifetime := CONFIG.DROP_LIFETIME }
  { s with drops := s.drops ++ [drop] }

/-- GameState.spawn_ripple with explicit x and y; the random max radius is
passed in.  Radius and alpha take their dataclass defaults. -/
def GameState.spawn_ripple (s : GameState) (x y : ℚ) (mr : ℚ) : GameState :=
  { s with ripples := s.ripples ++ [{ x := x, y := y, max_radius := mr }] }

/-- The rain-processing fragment of GameState.update_all: each drop is
stepped; a drop whose update reports alive is kept; otherwise, if its new y
is at or past WINDOW_HEIGHT - 45, a spawn_ripple request at
(x, WINDOW_HEIGHT - 38) is recorded; the drop is dropped either way.
Returns the kept drops and the ripple coordinate requests, in loop order. -/
def process_rain : List RainDrop → List RainDrop × List (ℚ × ℚ)
  | [] => ([], [])
  | rain :: rest =>
    let p := rain.update
    let acc := process_rain rest
    if p.2 then (p.1 :: acc.1, acc.2)
    else if (CONFIG.WINDOW_HEIGHT : ℚ) - 45 ≤ p.1.y then
      (acc.1, (p.1.x, (CONFIG.WINDOW_HEIGHT : ℚ) - 38) :: acc.2)
    else (acc.1, acc.2)

/-- Renderer.get_time_of_day; the datetime hour (0..23) is passed in. -/
def get_time_of_day (hour : ℕ) : ℕ × String :=
  if 5 ≤ hour ∧ hour < 7 then (hour, "dawn")
  else if 7 ≤ hour ∧ hour < 11 then (hour, "morning")
  else if 11 ≤ hour ∧ hour < 14 then (hour, "noon")
  else if 14 ≤ hour ∧ hour < 17 then (hour, "afternoon")
  else if 17 ≤ hour ∧ hour < 19 then (hour, "evening")
  else if 19 ≤ hour ∧ hour < 21 then (hour, "dusk")
  else (hour, "night")

/-- Renderer.get_sky_color: the fixed dictionary lookup, whose afternoon
entry is COLORS.sky_morning, with the noon color as the missing-key
default. -/
def get_sky_color (time_period : String) : ℕ × ℕ × ℕ × ℕ :=
  if time_period = "dawn" then COLORS.sky_dawn
  else if time_period = "morning" then COLORS.sky_morning
  else if time_period = "noon" then COLORS.sky_noon
  else if time_period = "afternoon" then COLORS.sky_morning
  else if time_period = "evening" then COLORS.sky_evening
  else if time_period = "dusk" then COLORS.sky_dusk
  else if time_period = "night" then COLORS.sky_night
  else COLORS.sky_noon

/-- Renderer.calc_sun_position: inside the inclusive rise..set window the x
is the integer half width and y follows the sine arc; outside it the fixed
off-canvas sentinel (-50, -50). -/
noncomputable def calc_sun_position (hour : ℤ) : ℝ × ℝ :=
  if CONFIG.SUN_RISE_HOUR ≤ hour ∧ hour ≤ CONFIG.SUN_SET_HOUR then
    let elapsed : ℝ := (hour : ℝ) - (CONFIG.SUN_RISE_HOUR : ℝ)
    let t : ℝ := elapsed / ((CONFIG.SUN_SET_HOUR : ℝ) - (CONFIG.SUN_RISE_HOUR : ℝ))
    (((CONFIG.WINDOW_WIDTH / 2 : ℕ) : ℝ), 220 - 160 * Real.sin (t * Real.pi))
  else (-50, -50)

/-- The inclusive integer outcome set of random.randint(a, b). -/
def randint_range (a b : ℕ) : Finset ℕ := Finset.Icc a b

/-- DesktopPet.update rain trial applied to the randint(0, RAIN_PROBABILITY)
draw: the test k == 0. -/
def rain_trial (k : ℕ) : Bool := k == 0

/-- DesktopPet.update ambient ripple trial applied to the
randint(0, RIPPLE_PROBABILITY) draw: the test k == 0. -/
def ripple_trial (k : ℕ) : Bool := k == 0

/-- Fish.update jump trial applied to the randint(0, FISH_PROBABILITY)
draw: the test k == 0. -/
def fish_trial (k : ℕ) : Bool := k == 0

/-- The fraction of outcomes of a uniform draw on which a trial succeeds. -/
def trial_fraction (draw : Finset ℕ) (trial : ℕ → Bool) : ℚ :=
  ((draw.filter fun k => trial k = true).card : ℚ) / (draw.card : ℚ)

/-! ## Shared configuration facts -/

theorem CONFIG_window_height : CONFIG.WINDOW_HEIGHT = 320 := rfl

theorem CONFIG_window_width : CONFIG.WINDOW_WIDTH = 320 := rfl

theorem CONFIG_rise_hour : CONFIG.SUN_RISE_HOUR = 6 := rfl

theorem CONFIG_set_hour : CONFIG.SUN_SET_HOUR = 18 := rfl

theorem CONFIG_easter_days : CONFIG.EASTER_EGG_DAYS = 3 := rfl

theorem CONFIG_rain_p : CONFIG.RAIN_PROBABILITY = 25 := rfl

theorem CONFIG_ripple_p : CONFIG.RIPPLE_PROBABILITY = 60 := rfl

theorem CONFIG_fish_p : CONFIG.FISH_PROBABILITY = 200 := rfl

theorem CONFIG_drop_gravity : CONFIG.DROP_GRAVITY = 1 / 4 := by norm_num [CONFIG]

theorem CONFIG_ripple_expand : CONFIG.RIPPLE_EXPAND_SPEED = 4 / 5 := by norm_num [CONFIG]

/-! ## Claim C7: time-of-day classification and sky colors -/

/-- Claim C7: for every hour in 0..23 the classification returns dawn on
[5,7), morning on [7,11), noon on [11,14), afternoon on [14,17), evening on
[17,19), dusk on [19,21) and night on [21,24) together with [0,5), all
half-open, and the sky-color lookup maps afternoon to the morning color. -/
theorem time_of_day_spec :
    (∀ h : Fin 24,
      (get_time_of_day h.val).1 = h.val ∧
      ((get_time_of_day h.val).2 = "dawn" ↔ 5 ≤ h.val ∧ h.val < 7) ∧
      ((get_time_of_day h.val).2 = "morning" ↔ 7 ≤ h.val ∧ h.val < 11) ∧
      ((get_time_of_day h.val).2 = "noon" ↔ 11 ≤ h.val ∧ h.val < 14) ∧
      ((get_time_of_day h.val).2 = "afternoon" ↔ 14 ≤ h.val ∧ h.val < 17) ∧
      ((get_time_of_day h.val).2 = "evening" ↔ 17 ≤ h.val ∧ h.val < 19) ∧
      ((get_time_of_day h.val).2 = "dusk" ↔ 19 ≤ h.val ∧ h.val < 21) ∧
      ((get_time_of_day h.val).2 = "night" ↔ 21 ≤ h.val ∨ h.val < 5)) ∧
    get_sky_color "afternoon" = get_sky_color "morning" := by
  constructor
  · decide
  · rfl

/-! ## Claim C5: the per-tick spawn trials -/

set_option maxRecDepth 4000 in
/-- Claim C5 failing evaluation: over the inclusive randint(0, N) draw each
spawn trial succeeds on exactly one of N + 1 outcomes, so the success
fraction is 1/(N+1) - 1/26, 1/61 and 1/201 for rain, ambient ripples and
fish jumps - and not the documented 1/N. -/
theorem spawn_trial_fraction_off_by_one :
    trial_fraction (randint_range 0 CONFIG.RAIN_PROBABILITY) rain_trial = 1 / 26 ∧
    trial_fraction (randint_range 0 CONFIG.RIPPLE_PROBABILITY) ripple_trial = 1 / 61 ∧
    trial_fraction (randint_range 0 CONFIG.FISH_PROBABILITY) fish_trial = 1 / 201 ∧
    trial_fraction (randint_range 0 CONFIG.RAIN_PROBABILITY) rain_trial ≠
      1 / (CONFIG.RAIN_PROBABILITY : ℚ) ∧
    trial_fraction (randint_range 0 CONFIG.RIPPLE_PROBABILITY) ripple_trial ≠
      1 / (CONFIG.RIPPLE_PROBABILITY : ℚ) ∧
    trial_fraction (randint_range 0 CONFIG.FISH_PROBABILITY) fish_trial ≠
      1 / (CONFIG.FISH_PROBABILITY : ℚ) := by
  have hr : trial_fraction (randint_range 0 CONFIG.RAIN_PROBABILITY) rain_trial = 1 / 26 := by
    have h1 : ((randint_range 0 CONFIG.RAIN_PROBABILITY).filter
        fun k => rain_trial k = true).card = 1 := by decide
    have h2 : (randint_range 0 CONFIG.RAIN_PROBABILITY).card = 26 := by decide
    rw [trial_fraction, h1, h2]; norm_num
  have hp : trial_fraction (randint_range 0 CONFIG.RIPPLE_PROBABILITY) ripple_trial = 1 / 61 := by
    have h1 : ((randint_range 0 CONFIG.RIPPLE_PROBABILITY).filter
        fun k => ripple_trial k = true).card = 1 := by decide
    have h2 : (randint_range 0 CONFIG.RIPPLE_PROBABILITY).card = 61 := by decide
    rw [trial_fraction, h1, h2]; norm_num
  have hf : trial_fraction (randint_range 0 CONFIG.FISH_PROBABILITY) fish_trial = 1 / 201 := by
    have h1 : ((randint_range 0 CONFIG.FISH_PROBABILITY).filter
        fun k => fish_trial k = true).card = 1 := by decide
    have h2 : (randint_range 0 CONFIG.FISH_PROBABILITY).card = 201 := by decide
    rw [trial_fraction, h1, h2]; norm_num
  refine ⟨hr, hp, hf, ?_, ?_, ?_⟩
  · rw [hr, CONFIG_rain_p]; norm_num
  · rw [hp, CONFIG_ripple_p]; norm_num
  · rw [hf, CONFIG_fish_p]; norm_num

/-! ## Claim C10: spawn coordinates are stored verbatim -/

/-- Claim C10: spawn_drop and spawn_ripple store the caller-supplied
coordinates verbatim for every value, with no clamping: the appended
WaterDrop has exactly the given x, and the appended Ripple has exactly the
given x and y. -/
theorem spawn_coords_exact (s : GameState) (x : ℤ) (size : ℕ) (jitter : ℚ)
    (rx ry mr : ℚ) :
    (s.spawn_drop x size jitter).drops.map WaterDrop.x =
      s.drops.map WaterDrop.x ++ [(x : ℚ)] ∧
    (s.spawn_ripple rx ry mr).ripples.map Ripple.x =
      s.ripples.map Ripple.x ++ [rx] ∧
    (s.spawn_ripple rx ry mr).ripples.map Ripple.y =
      s.ripples.map Ripple.y ++ [ry] := by
  refine ⟨?_, ?_, ?_⟩ <;> simp [GameState.spawn_drop, GameState.spawn_ripple]

/-! ## Claim C1: rain impact and ripple synthesis -/

/-- A rain drop just above the pond-surface band, about to cross it. -/
def band_rain : RainDrop := { x := 100, y := 270, length := 10, speed := 5 }

/-- Claim C1 counterexample: band_rain crosses the pond-surface band
(y reaches 275 = WINDOW_HEIGHT - 45) on this tick, yet the tick spawns no
ripple and keeps the drop, and the next tick also spawns no ripple and
keeps the drop: synthesis is neither on the crossing tick nor tied to the
crossing, and removal is not on or immediately after it. -/
theorem rain_band_crossing_spawns_nothing :
    band_rain.y < (CONFIG.WINDOW_HEIGHT : ℚ) - 45 ∧
    (CONFIG.WINDOW_HEIGHT : ℚ) - 45 ≤ band_rain.update.1.y ∧
    process_rain [band_rain] = ([{ x := 100, y := 275, length := 10, speed := 5 }], []) ∧
    process_rain (process_rain [band_rain]).1 =
      ([{ x := 100, y := 280, length := 10, speed := 5 }], []) := by
  refine ⟨by norm_num [band_rain, CONFIG_window_height], ?_, ?_, ?_⟩
  · simp only [RainDrop.update, band_rain, CONFIG_window_height]
    norm_num
  · have halive : band_rain.update.2 = true := by
      simp only [RainDrop.update, decide_eq_true_eq, band_rain, CONFIG_window_height]
      norm_num
    simp only [process_rain, halive, if_true]
    simp [RainDrop.update, band_rain]
    norm_num
  · have h1 : process_rain [band_rain] =
        ([{ x := 100, y := 275, length := 10, speed := 5 }], []) := by
      have halive : band_rain.update.2 = true := by
        simp only [RainDrop.update, decide_eq_true_eq, band_rain, CONFIG_window_height]
        norm_num
      simp only [process_rain, halive, if_true]
      simp [RainDrop.update, band_rain]
      norm_num
    rw [h1]
    have halive : (RainDrop.update { x := 100, y := 275, length := 10, speed := 5 }).2 = true := by
      simp only [RainDrop.update, decide_eq_true_eq, CONFIG_window_height]
      norm_num
    simp only [process_rain, halive, if_true]
    simp [RainDrop.update]
    norm_num

/-- Claim C1 (amended): on each tick a rain drop spawns a ripple exactly
when its own update reports not-alive (its new y is at or past the window
height): that tick records one spawn_ripple request at
(x, WINDOW_HEIGHT - 38) and removes the drop, the band test being implied
by leaving the window; a drop whose update reports alive is kept and spawns
nothing, even if it crossed the pond-surface band on this tick. -/
theorem rain_ripple_on_removal (r : RainDrop) (rest : List RainDrop) :
    (r.y + (r.speed : ℚ) < (CONFIG.WINDOW_HEIGHT : ℚ) →
      process_rain (r :: rest) =
        (r.update.1 :: (process_rain rest).1, (process_rain rest).2)) ∧
    ((CONFIG.WINDOW_HEIGHT : ℚ) ≤ r.y + (r.speed : ℚ) →
      process_rain (r :: rest) =
        ((process_rain rest).1,
          (r.x, (CONFIG.WINDOW_HEIGHT : ℚ) - 38) :: (process_rain rest).2)) := by
  constructor
  · intro h
    have halive : r.update.2 = true := by
      simp only [RainDrop.update, decide_eq_true_eq]
      exact h
    simp only [process_rain, halive, if_true]
  · intro h
    have halive : r.update.2 = false := by
      simp only [RainDrop.update, decide_eq_false_iff_not, not_lt]
      exact h
    have hband : (CONFIG.WINDOW_HEIGHT : ℚ) - 45 ≤ r.update.1.y := by
      simp only [RainDrop.update]
      linarith
    simp only [process_rain, halive, Bool.false_eq_true, if_false, hband, if_true]
    simp [RainDrop.update]

/-- Claim C1 witness: a drop at y = 318 with speed 5 leaves the 320-high
window this tick, is removed, and requests exactly one ripple at
(x, 282). -/
theorem rain_ripple_on_removal_witness :
    process_rain [{ x := 100, y := 318, length := 10, speed := 5 }] =
      (([] : List RainDrop), [((100 : ℚ), (CONFIG.WINDOW_HEIGHT : ℚ) - 38)]) := by
  have h := (rain_ripple_on_removal { x := 100, y := 318, length := 10, speed := 5 } []).2
    (by norm_num [CONFIG_window_height])
  simpa [process_rain] using h

/-! ## Claim C2: the milestone flag -/

/-- A fresh GameState whose immutable start timestamp is 0. -/
def gs0 : GameState := { start_time := 0 }

/-- After a reading of 259200 s (exactly 3 days past start) the flag is
recomputed to true. -/
theorem gs0_flag_at_three_days : (gs0.update_run_days 259200).mountain_show = true := by
  have h3 : ((259200 : ℚ) - 0) / (24 * 60 * 60) = ((3 : ℤ) : ℚ) := by norm_num
  simp only [GameState.update_run_days, gs0, h3, Int.floor_intCast, CONFIG_easter_days,
    decide_eq_true_eq]
  norm_num

/-- Claim C2 counterexample: the flag is true at a reading 3 days past the
start, and recomputes to false when a later tick reads the clock at the
start time again (clock rollback), so it is not a one-way latch. -/
theorem milestone_flag_resets_on_clock_rollback :
    (gs0.update_run_days 259200).mountain_show = true ∧
    ((gs0.update_run_days 259200).update_run_days 0).mountain_show = false := by
  refine ⟨gs0_flag_at_three_days, ?_⟩
  have h0 : ((0 : ℚ) - 0) / (24 * 60 * 60) = ((0 : ℤ) : ℚ) := by norm_num
  simp only [GameState.update_run_days, gs0, h0, Int.floor_intCast, CONFIG_easter_days,
    decide_eq_false_iff_not]
  norm_num

/-- Claim C2 (amended): the flag is recomputed from scratch on every tick as
elapsed-days at-least-threshold; once true it stays true on every later tick
provided the current-time reading does not decrease, but a decreasing
reading can reset it. -/
theorem milestone_latch_under_monotone_clock (s : GameState) (t1 t2 : ℚ)
    (hle : t1 ≤ t2) (h : (s.update_run_days t1).mountain_show = true) :
    ((s.update_run_days t1).update_run_days t2).mountain_show = true := by
  simp only [GameState.update_run_days, decide_eq_true_eq] at h ⊢
  refine le_trans h (Int.floor_le_floor ?_)
  gcongr

/-- Claim C2 witness: with start 0, flag true at reading 259200 s, still
true at the later reading 300000 s. -/
theorem milestone_latch_under_monotone_clock_witness :
    ((gs0.update_run_days 259200).update_run_days 300000).mountain_show = true :=
  milestone_latch_under_monotone_clock gs0 259200 300000 (by norm_num) gs0_flag_at_three_days

/-! ## Claim C3: the WaterDrop end-to-end scenario -/

/-- The scenario drop: spawned at the pond surface y = WINDOW_HEIGHT - 45 =
275 with the configured initial velocity -7.0, gravity 0.25 and lifetime
40, no jitter. -/
def spec_drop : WaterDrop :=
  { x := 160, y := 275, size := 6, velocity_y := -7, lifetime := 40 }

/-- Closed form of the scenario trajectory after n update calls. -/
theorem spec_drop_closed_form (n : ℕ) :
    (WaterDrop.step^[n] spec_drop).velocity_y = -7 + (n : ℚ) / 4 ∧
    (WaterDrop.step^[n] spec_drop).y =
      275 - 7 * (n : ℚ) + (n : ℚ) * ((n : ℚ) - 1) / 8 ∧
    (WaterDrop.step^[n] spec_drop).lifetime = 40 - (n : ℤ) := by
  induction n with
  | zero =>
    refine ⟨?_, ?_, ?_⟩ <;> simp [spec_drop]
  | succ n ih =>
    obtain ⟨hv, hy, hl⟩ := ih
    rw [Function.iterate_succ_apply']
    refine ⟨?_, ?_, ?_⟩
    · show (WaterDrop.step^[n] spec_drop).velocity_y + CONFIG.DROP_GRAVITY = _
      rw [hv, CONFIG_drop_gravity]
      push_cast
      ring
    · show (WaterDrop.step^[n] spec_drop).y + (WaterDrop.step^[n] spec_drop).velocity_y = _
      rw [hy, hv]
      push_cast
      ring
    · show (WaterDrop.step^[n] spec_drop).lifetime - 1 = _
      rw [hl]
      push_cast
      ring

/-- Claim C3 counterexample: after exactly 28 update calls the scenario
velocity is -7 + 28 * 0.25 = 0, which is not strictly positive. -/
theorem drop_velocity_zero_after_28 :
    ¬ (0 < (WaterDrop.step^[28] spec_drop).velocity_y) := by
  have h := (spec_drop_closed_form 28).1
  rw [h]
  norm_num

/-- Claim C3 (amended): the scenario trajectory matches the closed form;
the velocity is exactly 0 after 28 calls and first strictly positive after
29; every call up to the 39th reports alive and the 40th reports not-alive,
so the drop is removed on the tick its lifetime reaches 0 (the floor bound
y = 290 is never reached first, the trajectory peaking at y = 275). -/
theorem drop_scenario_trajectory :
    (∀ n : ℕ,
      (WaterDrop.step^[n] spec_drop).velocity_y = -7 + (n : ℚ) / 4 ∧
      (WaterDrop.step^[n] spec_drop).y =
        275 - 7 * (n : ℚ) + (n : ℚ) * ((n : ℚ) - 1) / 8 ∧
      (WaterDrop.step^[n] spec_drop).lifetime = 40 - (n : ℤ)) ∧
    (WaterDrop.step^[28] spec_drop).velocity_y = 0 ∧
    0 < (WaterDrop.step^[29] spec_drop).velocity_y ∧
    (∀ n : ℕ, n < 39 → ((WaterDrop.step^[n] spec_drop).update).2 = true) ∧
    ((WaterDrop.step^[39] spec_drop).update).2 = false := by
  refine ⟨spec_drop_closed_form, ?_, ?_, ?_, ?_⟩
  · rw [(spec_drop_closed_form 28).1]; norm_num
  · rw [(spec_drop_closed_form 29).1]; norm_num
  · intro n hn
    obtain ⟨hv, hy, hl⟩ := spec_drop_closed_form n
    simp only [WaterDrop.update, decide_eq_true_eq, hv, hy, hl, CONFIG_drop_gravity,
      CONFIG_window_height]
    constructor
    · have : (n : ℤ) < 39 := by exact_mod_cast hn
      omega
    · have hq : (n : ℚ) ≤ 38 := by
        have : (n : ℕ) ≤ 38 := by omega
        exact_mod_cast this
      have hq0 : (0 : ℚ) ≤ (n : ℚ) := by positivity
      nlinarith [mul_nonneg hq0 (by linarith : (0 : ℚ) ≤ 38 - (n : ℚ))]
  · obtain ⟨hv, hy, hl⟩ := spec_drop_closed_form 39
    simp only [WaterDrop.update, decide_eq_false_iff_not, hl]
    rintro ⟨h1, -⟩
    push_cast at h1

/-- Claim C3 witness: the closed form and the alive flag evaluated at the
10th call. -/
theorem drop_scenario_trajectory_witness :
    (WaterDrop.step^[10] spec_drop).velocity_y = -7 + ((10 : ℕ) : ℚ) / 4 ∧
    ((WaterDrop.step^[10] spec_drop).update).2 = true :=
  ⟨(drop_scenario_trajectory.1 10).1, drop_scenario_trajectory.2.2.2.1 10 (by norm_num)⟩

/-! ## Claim C4: ripple alpha -/

/-- Truncation toward zero sends nonpositive values to nonpositive ones. -/
theorem pyInt_nonpos {q : ℚ} (h : q ≤ 0) : pyInt q ≤ 0 := by
  unfold pyInt
  split_ifs with hq
  · have : (0 : ℤ) ≤ Int.floor (-q) := Int.floor_nonneg.mpr (by linarith)
    omega
  · calc Int.floor q ≤ Int.floor (0 : ℚ) := Int.floor_le_floor h
    _ = 0 := Int.floor_zero

/-- Truncation toward zero is monotone. -/
theorem pyInt_mono {a b : ℚ} (h : a ≤ b) : pyInt a ≤ pyInt b := by
  unfold pyInt
  split_ifs with ha hb
  · have : Int.floor (-b) ≤ Int.floor (-a) := Int.floor_le_floor (by linarith)
    omega
  · have h1 : (0 : ℤ) ≤ Int.floor (-a) := Int.floor_nonneg.mpr (by linarith)
    have h2 : (0 : ℤ) ≤ Int.floor b := Int.floor_nonneg.mpr (by linarith)
    omega
  · linarith
  · exact Int.floor_le_floor h

/-- Claim C4: for a ripple with positive max radius, alpha is non-increasing
across successive update calls; the update reports not-alive exactly when
the new radius has reached the max radius; and on any such call alpha is
exactly 0 (so alpha hits 0 no later than the destroying call). -/
theorem ripple_alpha_monotone_zero (r : Ripple) (hmr : 0 < r.max_radius) :
    (r.update.1.update).1.alpha ≤ r.update.1.alpha ∧
    (r.update.2 = false ↔ r.max_radius ≤ r.update.1.radius) ∧
    (r.max_radius ≤ r.update.1.radius → r.update.1.alpha = 0) := by
  refine ⟨?_, ?_, ?_⟩
  · simp only [Ripple.update]
    apply max_le_max le_rfl
    apply pyInt_mono
    have he : (0 : ℚ) < CONFIG.RIPPLE_EXPAND_SPEED := by
      rw [CONFIG_ripple_expand]; norm_num
    have hdiv : (r.radius + CONFIG.RIPPLE_EXPAND_SPEED) / r.max_radius ≤
        (r.radius + CONFIG.RIPPLE_EXPAND_SPEED + CONFIG.RIPPLE_EXPAND_SPEED) / r.max_radius := by
      gcongr
      linarith
    linarith
  · simp only [Ripple.update, decide_eq_false_iff_not, not_lt]
  · intro h
    simp only [Ripple.update] at h ⊢
    have hq : (1 : ℚ) ≤ (r.radius + CONFIG.RIPPLE_EXPAND_SPEED) / r.max_radius :=
      (one_le_div hmr).mpr h
    have harg : 200 * (1 - (r.radius + CONFIG.RIPPLE_EXPAND_SPEED) / r.max_radius) ≤ 0 := by
      nlinarith
    simpa using max_eq_left (pyInt_nonpos harg)

/-- A nearly spent ripple: radius 29.5, max radius 30. -/
def spent_ripple : Ripple :=
  { x := 100, y := 282, radius := 59 / 2, max_radius := 30, alpha := 5 }

/-- Claim C4 witness: the theorem evaluated on spent_ripple, whose next
update pushes the radius past its max radius. -/
theorem ripple_alpha_monotone_zero_witness :
    (spent_ripple.update.1.update).1.alpha ≤ spent_ripple.update.1.alpha ∧
    (spent_ripple.update.2 = false ↔
      spent_ripple.max_radius ≤ spent_ripple.update.1.radius) ∧
    (spent_ripple.max_radius ≤ spent_ripple.update.1.radius →
      spent_ripple.update.1.alpha = 0) :=
  ripple_alpha_monotone_zero spent_ripple (by norm_num [spent_ripple])

/-! ## Claim C6: the sun arc -/

/-- Inside the window the position is the center x with the sine arc y. -/
theorem calc_sun_position_in_window (h : ℤ) (h1 : CONFIG.SUN_RISE_HOUR ≤ h)
    (h2 : h ≤ CONFIG.SUN_SET_HOUR) :
    calc_sun_position h =
      (160, 220 - 160 * Real.sin (Real.pi * ((h : ℝ) - 6) / 12)) := by
  rw [calc_sun_position, if_pos ⟨h1, h2⟩]
  simp only [CONFIG_rise_hour, CONFIG_set_hour, CONFIG_window_width, Prod.mk.injEq]
  constructor
  · norm_num
  · rw [show ((h : ℝ) - ((6 : ℤ) : ℝ)) / (((18 : ℤ) : ℝ) - ((6 : ℤ) : ℝ)) * Real.pi =
      Real.pi * ((h : ℝ) - 6) / 12 by push_cast; ring]

/-- Claim C6: within the inclusive rise..set window the position is the
fixed horizontal center x = 160 with y = 220 - 160 sin(pi (h - 6) / 12);
rise and set give the equal low point y = 220, the midpoint hour 12 gives
the minimal y = 60 and every in-window hour lies between them; outside the
window the result is the fixed off-canvas sentinel (-50, -50). -/
theorem sun_arc_spec :
    (∀ h : ℤ, CONFIG.SUN_RISE_HOUR ≤ h → h ≤ CONFIG.SUN_SET_HOUR →
      calc_sun_position h =
        (160, 220 - 160 * Real.sin (Real.pi * ((h : ℝ) - 6) / 12))) ∧
    calc_sun_position CONFIG.SUN_RISE_HOUR = (160, 220) ∧
    calc_sun_position CONFIG.SUN_SET_HOUR = (160, 220) ∧
    (calc_sun_position 12).2 = 60 ∧
    (∀ h : ℤ, CONFIG.SUN_RISE_HOUR ≤ h → h ≤ CONFIG.SUN_SET_HOUR →
      (calc_sun_position 12).2 ≤ (calc_sun_position h).2 ∧
      (calc_sun_position h).2 ≤ (calc_sun_position CONFIG.SUN_RISE_HOUR).2) ∧
    (∀ h : ℤ, h < CONFIG.SUN_RISE_HOUR ∨ CONFIG.SUN_SET_HOUR < h →
      calc_sun_position h = (-50, -50)) := by
  have hrise : calc_sun_position CONFIG.SUN_RISE_HOUR = (160, 220) := by
    rw [calc_sun_position_in_window CONFIG.SUN_RISE_HOUR le_rfl (by decide)]
    rw [CONFIG_rise_hour]
    rw [show Real.pi * (((6 : ℤ) : ℝ) - 6) / 12 = 0 by push_cast; ring]
    rw [Real.sin_zero]
    norm_num
  have hset : calc_sun_position CONFIG.SUN_SET_HOUR = (160, 220) := by
    rw [calc_sun_position_in_window CONFIG.SUN_SET_HOUR (by decide) le_rfl]
    rw [CONFIG_set_hour]
    rw [show Real.pi * (((18 : ℤ) : ℝ) - 6) / 12 = Real.pi by push_cast; ring]
    rw [Real.sin_pi]
    norm_num
  have hmid : (calc_sun_position 12).2 = 60 := by
    rw [calc_sun_position_in_window 12 (by decide) (by decide)]
    show 220 - 160 * Real.sin (Real.pi * (((12 : ℤ) : ℝ) - 6) / 12) = 60
    rw [show Real.pi * (((12 : ℤ) : ℝ) - 6) / 12 = Real.pi / 2 by push_cast; ring]
    rw [Real.sin_pi_div_two]
    norm_num
  refine ⟨calc_sun_position_in_window, hrise, hset, hmid, ?_, ?_⟩
  · intro h h1 h2
    rw [calc_sun_position_in_window h h1 h2, hmid, hrise]
    have hcast1 : (6 : ℝ) ≤ (h : ℝ) := by
      rw [CONFIG_rise_hour] at h1
      exact_mod_cast h1
    have hcast2 : (h : ℝ) ≤ 18 := by
      rw [CONFIG_set_hour] at h2
      exact_mod_cast h2
    have hs1 : Real.sin (Real.pi * ((h : ℝ) - 6) / 12) ≤ 1 := Real.sin_le_one _
    have hs0 : 0 ≤ Real.sin (Real.pi * ((h : ℝ) - 6) / 12) := by
      apply Real.sin_nonneg_of_nonneg_of_le_pi
      · have hnn : (0 : ℝ) ≤ (h : ℝ) - 6 := by linarith
        have := Real.pi_pos
        positivity
      · rw [div_le_iff₀ (by norm_num : (0:ℝ) < 12)]
        nlinarith [Real.pi_pos]
    constructor
    · show (60 : ℝ) ≤ 220 - 160 * Real.sin (Real.pi * ((h : ℝ) - 6) / 12)
      linarith
    · show (220 : ℝ) - 160 * Real.sin (Real.pi * ((h : ℝ) - 6) / 12) ≤ 220
      linarith
  · intro h hout
    rw [calc_sun_position, if_neg]
    rintro ⟨hc1, hc2⟩
    rcases hout with hlt | hgt
    · exact absurd hc1 (not_le.mpr hlt)
    · exact absurd hc2 (not_le.mpr hgt)

/-- Claim C6 witness: the arc formula at hour 7 and the sentinel at hour
3. -/
theorem sun_arc_spec_witness :
    calc_sun_position 7 =
      (160, 220 - 160 * Real.sin (Real.pi * (((7 : ℤ) : ℝ) - 6) / 12)) ∧
    calc_sun_position 3 = (-50, -50) :=
  ⟨sun_arc_spec.1 7 (by norm_num [CONFIG_rise_hour]) (by norm_num [CONFIG_set_hour]),
    sun_arc_spec.2.2.2.2.2 3 (Or.inl (by norm_num [CONFIG_rise_hour]))⟩

/-! ## Claims C8 and C9: the fish jump -/

/-- One update of a jumping fish: it either lands (the moved y reaches the
baseline, so y clamps to base_y, the velocity is still incremented, and the
state flips back to swimming) or keeps rising/falling with the moved y and
incremented velocity. -/
theorem fish_step_jumping (r : ℕ) (f : Fish) (hj : f.jumping = true) :
    (f.base_y ≤ f.y + f.jump_velocity →
      Fish.update r f =
        { f with
          y := f.base_y
          jump_velocity := f.jump_velocity + 0.3
          jumping := false
          swimming := true }) ∧
    (f.y + f.jump_velocity < f.base_y →
      Fish.update r f =
        { f with
          y := f.y + f.jump_velocity
          jump_velocity := f.jump_velocity + 0.3 }) := by
  constructor
  · intro hland
    rw [Fish.update, if_pos hj, if_pos hland]
  · intro hup
    rw [Fish.update, if_pos hj, if_neg (not_le.mpr hup)]

/-- Claim C9: a single update of a jumping fish leaves x, direction, size,
base_y and swim_offset unchanged, whatever the random draw: the jump is
purely vertical. -/
theorem fish_jump_pure_vertical (r : ℕ) (f : Fish) (hj : f.jumping = true) :
    (Fish.update r f).x = f.x ∧
    (Fish.update r f).direction = f.direction ∧
    (Fish.update r f).size = f.size ∧
    (Fish.update r f).base_y = f.base_y ∧
    (Fish.update r f).swim_offset = f.swim_offset := by
  by_cases hland : f.base_y ≤ f.y + f.jump_velocity
  · rw [(fish_step_jumping r f hj).1 hland]
    exact ⟨rfl, rfl, rfl, rfl, rfl⟩
  · rw [(fish_step_jumping r f hj).2 (not_le.mp hland)]
    exact ⟨rfl, rfl, rfl, rfl, rfl⟩

/-- A concrete mid-air jumping fish with the configured initial jump
velocity. -/
def jump_fish : Fish :=
  { x := 100, y := 250, size := 12, direction := 1, swimming := false,
    jumping := true, jump_velocity := -6, base_y := 250, swim_offset := 0 }

/-- Claim C9 witness: the frame effect evaluated on jump_fish. -/
theorem fish_jump_pure_vertical_witness :
    (Fish.update 1 jump_fish).x = jump_fish.x ∧
    (Fish.update 1 jump_fish).direction = jump_fish.direction ∧
    (Fish.update 1 jump_fish).size = jump_fish.size ∧
    (Fish.update 1 jump_fish).base_y = jump_fish.base_y ∧
    (Fish.update 1 jump_fish).swim_offset = jump_fish.swim_offset :=
  fish_jump_pure_vertical 1 jump_fish rfl

/-- The landing configuration claim C8 asks for, after n updates. -/
def landed_after (f : Fish) (n : ℕ) : Prop :=
  ((Fish.update 1)^[n] f).y = f.base_y ∧
  ((Fish.update 1)^[n] f).swimming = true ∧
  ((Fish.update 1)^[n] f).jumping = false

/-- A jumping fish whose velocity is already at least 0.3 gains at least
0.3 of height per step, so once the remaining gap to the baseline is at
most 0.3 m it lands within m + 1 steps. -/
theorem fish_lands_of_fast (m : ℕ) :
    ∀ f : Fish, f.jumping = true → (0.3 : ℝ) ≤ f.jump_velocity →
      f.base_y - f.y ≤ 0.3 * m → ∃ n : ℕ, landed_after f n := by
  induction m with
  | zero =>
    intro f hj hv hd
    refine ⟨1, ?_⟩
    have hland : f.base_y ≤ f.y + f.jump_velocity := by
      push_cast at hd
      linarith
    have hstep := (fish_step_jumping 1 f hj).1 hland
    unfold landed_after
    rw [Function.iterate_one, hstep]
    exact ⟨rfl, rfl, rfl⟩
  | succ m ih =>
    intro f hj hv hd
    by_cases hland : f.base_y ≤ f.y + f.jump_velocity
    · refine ⟨1, ?_⟩
      have hstep := (fish_step_jumping 1 f hj).1 hland
      unfold landed_after
      rw [Function.iterate_one, hstep]
      exact ⟨rfl, rfl, rfl⟩
    · push_neg at hland
      have hstep := (fish_step_jumping 1 f hj).2 hland
      have hj' : (Fish.update 1 f).jumping = true := by rw [hstep]; exact hj
      have hv' : (0.3 : ℝ) ≤ (Fish.update 1 f).jump_velocity := by
        rw [hstep]
        show (0.3 : ℝ) ≤ f.jump_velocity + 0.3
        linarith
      have hd' : (Fish.update 1 f).base_y - (Fish.update 1 f).y ≤ 0.3 * m := by
        rw [hstep]
        show f.base_y - (f.y + f.jump_velocity) ≤ 0.3 * m
        push_cast at hd
        linarith
      obtain ⟨n, hn⟩ := ih (Fish.update 1 f) hj' hv' hd'
      refine ⟨n + 1, ?_⟩
      have hby : (Fish.update 1 f).base_y = f.base_y := by rw [hstep]
      unfold landed_after at hn ⊢
      rw [Function.iterate_succ_apply]
      rw [hby] at hn
      exact hn

/-- Every jumping fish whose velocity is at least 0.3 - 0.3 j eventually
lands: the velocity ramps up by 0.3 per step until the fast case applies. -/
theorem fish_lands_ramp (j : ℕ) :
    ∀ f : Fish, f.jumping = true → (0.3 : ℝ) - 0.3 * j ≤ f.jump_velocity →
      ∃ n : ℕ, landed_after f n := by
  induction j with
  | zero =>
    intro f hj hv
    push_cast at hv
    obtain ⟨m, hm⟩ := exists_nat_ge ((f.base_y - f.y) / 0.3)
    refine fish_lands_of_fast m f hj (by linarith) ?_
    rw [div_le_iff₀ (by norm_num : (0:ℝ) < 0.3)] at hm
    linarith
  | succ j ih =>
    intro f hj hv
    by_cases hland : f.base_y ≤ f.y + f.jump_velocity
    · refine ⟨1, ?_⟩
      have hstep := (fish_step_jumping 1 f hj).1 hland
      unfold landed_after
      rw [Function.iterate_one, hstep]
      exact ⟨rfl, rfl, rfl⟩
    · push_neg at hland
      have hstep := (fish_step_jumping 1 f hj).2 hland
      have hj' : (Fish.update 1 f).jumping = true := by rw [hstep]; exact hj
      have hv' : (0.3 : ℝ) - 0.3 * j ≤ (Fish.update 1 f).jump_velocity := by
        rw [hstep]
        show (0.3 : ℝ) - 0.3 * j ≤ f.jump_velocity + 0.3
        push_cast at hv
        linarith
      obtain ⟨n, hn⟩ := ih (Fish.update 1 f) hj' hv'
      refine ⟨n + 1, ?_⟩
      have hby : (Fish.update 1 f).base_y = f.base_y := by rw [hstep]
      unfold landed_after at hn ⊢
      rw [Function.iterate_succ_apply]
      rw [hby] at hn
      exact hn

/-- Claim C8: every fish that is jumping with the configured initial jump
velocity -6.0 returns, within a finite number of updates, to y exactly
equal to its base_y and to the swimming state (gravity 0.3 per step). -/
theorem fish_jump_returns (f : Fish) (hj : f.jumping = true)
    (hv : f.jump_velocity = -6) :
    ∃ n : ℕ, ((Fish.update 1)^[n] f).y = f.base_y ∧
      ((Fish.update 1)^[n] f).swimming = true ∧
      ((Fish.update 1)^[n] f).jumping = false :=
  fish_lands_ramp 22 f hj (by rw [hv]; norm_num)

/-- Claim C8 witness: jump_fish, mid-air at its baseline with velocity -6,
eventually lands back at base_y in the swimming state. -/
theorem fish_jump_returns_witness :
    ∃ n : ℕ, ((Fish.update 1)^[n] jump_fish).y = jump_fish.base_y ∧
      ((Fish.update 1)^[n] jump_fish).swimming = true ∧
      ((Fish.update 1)^[n] jump_fish).jumping = false :=
  fish_jump_returns jump_fish rfl rfl

end Pond
